import Mathlib

/-!
Verification of the reconciliation core of the elasticsearch-operator
repository: the secret reconciler (`CreateOrUpdate`, `Delete`, the equality
and mutation strategies, `GetDataSHA256`) from the secret package, and the
resource resolver (`newResourceRequirements`) and network-policy enforcement
(`EnforceNetworkPolicy`, `RelaxNetworkPolicy`) from
`internal/elasticsearch/common.go`.

Quantities (`resource.Quantity`) are modelled as `Nat`, where `0` means
"unset"/zero, matching `Quantity.IsZero`. A Kubernetes `ResourceList` is a
map that may lack an entry for a resource; an absent entry and a present
zero quantity are indistinguishable to `.Cpu()`/`.Memory()`/map indexing
(all return the zero quantity), so a `ResourceList` is a pair of
`Option Nat` (entry present with a value, or absent), and reading a
quantity out of it defaults to `0`.
-/

namespace ElasticsearchOperator

/-- A Kubernetes `v1.ResourceList` restricted to the two resource names the
resolver touches (`cpu`, `memory`); `none` means the map has no entry for
that resource. -/
structure ResourceList where
  cpu : Option Nat
  memory : Option Nat
deriving Repr, DecidableEq

/-- `v1.ResourceRequirements`: a limits list and a requests list. -/
structure ResourceRequirements where
  limits : ResourceList
  requests : ResourceList
deriving Repr, DecidableEq

/-- Reading a quantity out of a `ResourceList` entry: `.Cpu()`, `.Memory()`
and Go map indexing all yield the zero quantity when the entry is absent. -/
def quantityOf (entry : Option Nat) : Nat := entry.getD 0

/-- The memory block of `newResourceRequirements`
(`internal/elasticsearch/common.go` lines 434-493): computes the
`(requestMem, limitMem)` pointer pair; `none` models a `*resource.Quantity`
local that was never assigned (nil pointer). -/
def resolveMem (nodeRes commonRes defaultRes : ResourceRequirements) :
    Option Nat × Option Nat :=
  let nodeLimitMem := quantityOf nodeRes.limits.memory
  let nodeRequestMem := quantityOf nodeRes.requests.memory
  let commonLimitMem := quantityOf commonRes.limits.memory
  let commonRequestMem := quantityOf commonRes.requests.memory
  if commonRequestMem = 0 ∧ commonLimitMem = 0 then
    if nodeRequestMem = 0 ∧ nodeLimitMem = 0 then
      -- no node settings, use defaults
      (some (quantityOf defaultRes.requests.memory),
       some (quantityOf defaultRes.limits.memory))
    else
      if nodeRequestMem = 0 then
        -- request is zero, use limit for both
        (some nodeLimitMem, some nodeLimitMem)
      else if nodeLimitMem = 0 then
        -- limit is zero, use request for both
        (some nodeRequestMem, some nodeRequestMem)
      else
        (some nodeRequestMem, some nodeLimitMem)
  else
    let requestMem :=
      if nodeRequestMem = 0 then
        if commonRequestMem = 0 then commonLimitMem else commonRequestMem
      else nodeRequestMem
    let limitMem :=
      if nodeLimitMem = 0 then
        if commonLimitMem = 0 then commonRequestMem else commonLimitMem
      else nodeLimitMem
    (some requestMem, some limitMem)

/-- The CPU block of `newResourceRequirements`
(`internal/elasticsearch/common.go` lines 495-547): computes the
`(requestCPU, limitCPU)` pointer pair. Unlike memory, the defaults case
assigns no limit, the node-request-only case assigns no limit, and the
common branch leaves the limit nil when neither node nor common sets a
CPU limit. -/
def resolveCPU (nodeRes commonRes defaultRes : ResourceRequirements) :
    Option Nat × Option Nat :=
  let nodeLimitCPU := quantityOf nodeRes.limits.cpu
  let nodeRequestCPU := quantityOf nodeRes.requests.cpu
  let commonLimitCPU := quantityOf commonRes.limits.cpu
  let commonRequestCPU := quantityOf commonRes.requests.cpu
  if commonRequestCPU = 0 ∧ commonLimitCPU = 0 then
    if nodeRequestCPU = 0 ∧ nodeLimitCPU = 0 then
      -- no node settings, use the default request; no limit is assigned
      (some (quantityOf defaultRes.requests.cpu), none)
    else
      if nodeRequestCPU = 0 then
        -- request is zero, use limit for both
        (some nodeLimitCPU, some nodeLimitCPU)
      else if nodeLimitCPU = 0 then
        -- limit is zero: only the request is assigned
        (some nodeRequestCPU, none)
      else
        (some nodeRequestCPU, some nodeLimitCPU)
  else
    let requestCPU :=
      if nodeRequestCPU = 0 then
        if commonRequestCPU = 0 then commonLimitCPU else commonRequestCPU
      else nodeRequestCPU
    let limitCPU : Option Nat :=
      if nodeLimitCPU = 0 then
        if commonLimitCPU = 0 then none else some commonLimitCPU
      else some nodeLimitCPU
    (some requestCPU, limitCPU)

/-- `newResourceRequirements` (`internal/elasticsearch/common.go` lines
425-571). The final packaging dereferences the quantity pointers; a
dereference of a pointer that was never assigned yields `none` for the whole
result (modelling the nil-pointer panic), which totality (claim C10) rules
out. When `limitCPU` is nil the limits list carries no cpu entry. -/
def newResourceRequirements (nodeRes commonRes defaultRes : ResourceRequirements) :
    Option ResourceRequirements :=
  let mem := resolveMem nodeRes commonRes defaultRes
  let cpu := resolveCPU nodeRes commonRes defaultRes
  match cpu.2 with
  | none =>
    match mem.2, cpu.1, mem.1 with
    | some lm, some rc, some rm =>
      some ⟨⟨none, some lm⟩, ⟨some rc, some rm⟩⟩
    | _, _, _ => none
  | some lc =>
    match mem.2, cpu.1, mem.1 with
    | some lm, some rc, some rm =>
      some ⟨⟨some lc, some lm⟩, ⟨some rc, some rm⟩⟩
    | _, _, _ => none

/-! ## The secret package (src/unnamed/part_000)

A `corev1.Secret` is modelled by the fields the package reads or writes:
its key (name, namespace), the `Annotations` and `Labels` string maps, the
`Data` map from string keys to byte slices, and the store-managed revision
token `ResourceVersion`. String maps and the data map are association
lists; a byte is a `Nat`. -/

/-- The fields of `corev1.Secret` relevant to the secret package. -/
structure Secret where
  name : String
  nspace : String
  annotations : List (String × String)
  labels : List (String × String)
  data : List (String × List Nat)
  resourceVersion : String
deriving Repr, DecidableEq

/-- The error conditions the remote store distinguishes
(`apierrors.IsNotFound` / `IsAlreadyExists` / `IsConflict`); `transport`
is any other failure, tagged by an opaque code. -/
inductive StoreError where
  | notFound
  | alreadyExists
  | conflict
  | transport (code : Nat)
deriving Repr, DecidableEq

/-- An error as surfaced by this code base: either a raw store error, or a
`kverrors.Wrap` of a cause with a message and key/value context pairs. -/
inductive KubeError where
  | store (e : StoreError)
  | wrap (msg : String) (kvs : List (String × String)) (cause : KubeError)
deriving Repr, DecidableEq

/-- `apierrors.IsConflict`, which unwraps wrapped errors down to the cause
(via `errors.As`; `kverrors` wrappers implement `Unwrap`). -/
def KubeError.isConflict : KubeError → Bool
  | .store .conflict => true
  | .wrap _ _ c => c.isConflict
  | _ => false

/-- `kverrors.Root`: the innermost cause of a (possibly wrapped) error. -/
def KubeError.root : KubeError → StoreError
  | .store e => e
  | .wrap _ _ c => c.root

/-- A write issued against the remote store. -/
inductive Write where
  | create (s : Secret)
  | update (s : Secret)
deriving Repr, DecidableEq

/-- The remote store (`client.Client`) as seen by one `CreateOrUpdate` /
`Delete` call: the outcome of the initial get, of the get on each retry
attempt, of the update submitted on each attempt, and of create/delete.
This is the trace semantics of an arbitrary store interleaved with
arbitrary concurrent writers. -/
structure Client where
  getInitial : Except StoreError Secret
  getRetry : Nat → Except StoreError Secret
  updateResult : Nat → Secret → Option StoreError
  createResult : Option StoreError
  deleteResult : Option StoreError

/-- `AnnotationsAndDataEqual` (part_000 lines 140-143). -/
def AnnotationsAndDataEqual (current desired : Secret) : Bool :=
  current.annotations == desired.annotations && current.data == desired.data

/-- `DataEqual` (part_000 lines 146-148). -/
def DataEqual (current desired : Secret) : Bool :=
  current.data == desired.data

/-- `MutateAnnotationsAndDataOnly` (part_000 lines 152-155): the Go
function mutates `current` in place; here it returns the mutated copy,
leaving every other field as it was and `desired` untouched. -/
def MutateAnnotationsAndDataOnly (current desired : Secret) : Secret :=
  { current with annotations := desired.annotations, data := desired.data }

/-- `MutateDataOnly` (part_000 lines 159-161). -/
def MutateDataOnly (current desired : Secret) : Secret :=
  { current with data := desired.data }

/-- `retry.DefaultRetry.Steps` from client-go: the fixed retry budget. -/
def defaultRetrySteps : Nat := 5

/-- Modelled from the spec: `retry.RetryOnConflict(retry.DefaultRetry, fn)`
from the external client-go library, whose source is not part of this
repository — "up to a fixed retry budget with backoff; exceeding the budget
surfaces a conflict error". It runs `fn` up to `steps` times (the attempt
index is threaded through to address the store trace); a nil error stops
with success; a conflict error is remembered and retried; any other error
stops and is returned; an exhausted budget returns the last conflict error.
The inter-attempt backoff delay is real time and is not modelled. Writes
issued by the attempts are accumulated. -/
def retryOnConflict (fn : Nat → Option KubeError × List Write) :
    Nat → Nat → Option KubeError → Option KubeError × List Write
  | 0, _, lastErr => (lastErr, [])
  | steps + 1, i, _ =>
    match fn i with
    | (none, ws) => (none, ws)
    | (some e, ws) =>
      if e.isConflict then
        match retryOnConflict fn steps (i + 1) (some e) with
        | (e', ws') => (e', ws ++ ws')
      else (some e, ws)

/-- The closure passed to `retry.RetryOnConflict` inside `CreateOrUpdate`
(part_000 lines 98-111): re-get the current object (wrapping a get failure
with the secret's key), apply the mutation, submit the update (whose error
is returned raw so the conflict check can see it). The update call is a
write whether or not it succeeds. -/
def syncUpdateAttempt (c : Client) (s : Secret)
    (mutate : Secret → Secret → Secret) (i : Nat) :
    Option KubeError × List Write :=
  match c.getRetry i with
  | .error e =>
    (some (.wrap "failed to get secret"
      [("name", s.name), ("namespace", s.nspace)] (.store e)), [])
  | .ok current =>
    let merged := mutate current s
    match c.updateResult i merged with
    | some e => (some (.store e), [.update merged])
    | none => (none, [.update merged])

/-- `CreateOrUpdate` (part_000 lines 73-122), returning the surfaced error
(`none` = success) together with the writes issued against the store. -/
def CreateOrUpdate (c : Client) (s : Secret)
    (equal : Secret → Secret → Bool) (mutate : Secret → Secret → Secret) :
    Option KubeError × List Write :=
  match c.getInitial with
  | .error e =>
    if e = .notFound then
      match c.createResult with
      | none => (none, [.create s])
      | some ce =>
        (some (.wrap "failed to create secret"
          [("name", s.name), ("namespace", s.nspace)] (.store ce)), [.create s])
    else
      (some (.wrap "failed to get secret"
        [("name", s.name), ("namespace", s.nspace)] (.store e)), [])
  | .ok current =>
    if equal current s then (none, [])
    else
      match retryOnConflict (syncUpdateAttempt c s mutate) defaultRetrySteps 0 none with
      | (some e, ws) =>
        (some (.wrap "failed to update secret"
          [("name", s.name), ("namespace", s.nspace)] e), ws)
      | (none, ws) => (none, ws)

/-- `Delete` (part_000 lines 125-136): every delete failure — a not-found
included — is wrapped with the secret's key and returned. -/
def Delete (c : Client) (name nspace : String) : Option KubeError :=
  match c.deleteResult with
  | none => none
  | some e =>
    some (.wrap "failed to delete secret"
      [("name", name), ("namespace", nspace)] (.store e))

/-! ## Network policy enforcement (internal/elasticsearch/common.go) -/

/-- `EnforceNetworkPolicy` (common.go lines 756-768), abstracted over the
outcome of the `client.Create` call on the policy object: an
already-exists root cause is success, everything else is wrapped. -/
def EnforceNetworkPolicy (createRes : Option KubeError) : Option KubeError :=
  match createRes with
  | none => none
  | some e =>
    if e.root = .alreadyExists then none
    else some (.wrap "failed to create network policy" [] e)

/-- `RelaxNetworkPolicy` (common.go lines 770-780): a not-found root cause
on delete is success, everything else is wrapped. -/
def RelaxNetworkPolicy (deleteRes : Option KubeError) : Option KubeError :=
  match deleteRes with
  | none => none
  | some e =>
    if e.root = .notFound then none
    else some (.wrap "failed to delete network policy" [] e)

/-! ## Fingerprinting (src/unnamed/part_000, `GetDataSHA256`) -/

/-- Go map indexing `dataHashes[key]` over an association list: the value
at the first matching key, or the zero value when absent (never absent in
`GetDataSHA256`, whose keys come from the same map). -/
def lookupD (m : List (String × String)) (k : String) : String :=
  match m with
  | [] => ""
  | kv :: rest => if kv.1 = k then kv.2 else lookupD rest k

/-- `GetDataSHA256` (part_000 lines 40-66). The `crypto/sha256` primitive
is external to the repository and is a parameter of the embedding
(`sha256 v` stands for the `%s`-formatting of `sha256.Sum256(v)`); `fetch`
is the outcome of the `Get` call. On a fetch failure the initial empty
hash is returned; otherwise each data value is hashed, the keys are sorted
lexicographically (`sort.Strings`), and the digests are concatenated in
sorted key order. -/
def GetDataSHA256 (sha256 : List Nat → String)
    (fetch : Except StoreError Secret) : String :=
  match fetch with
  | .error _ => ""
  | .ok sec =>
    let dataHashes := sec.data.map (fun kv => (kv.1, sha256 kv.2))
    let sortedKeys := List.insertionSort (· ≤ ·) (dataHashes.map Prod.fst)
    sortedKeys.foldl (fun h key => h ++ lookupD dataHashes key) ""

/-! ## Resolver lemmas -/

/-- The memory block assigns both pointers on every control path. -/
lemma resolveMem_some (n c d : ResourceRequirements) :
    ∃ rm lm, resolveMem n c d = (some rm, some lm) := by
  simp only [resolveMem]
  split_ifs <;> exact ⟨_, _, rfl⟩

/-- The CPU block always assigns the request pointer. -/
lemma resolveCPU_fst_some (n c d : ResourceRequirements) :
    ∃ rc lc, resolveCPU n c d = (some rc, lc) := by
  simp only [resolveCPU]
  split_ifs <;> exact ⟨_, _, rfl⟩

/-- Packaging: with both memory pointers and the CPU request pointer
assigned, `newResourceRequirements` dereferences them into the result,
carrying the CPU limit pointer over as the presence or absence of the
cpu entry of the limits list. -/
lemma newResourceRequirements_eq {n c d : ResourceRequirements}
    {rm lm rc : Nat} {lc : Option Nat}
    (hm : resolveMem n c d = (some rm, some lm))
    (hc : resolveCPU n c d = (some rc, lc)) :
    newResourceRequirements n c d = some ⟨⟨lc, some lm⟩, ⟨some rc, some rm⟩⟩ := by
  simp only [newResourceRequirements, hm, hc]
  cases lc <;> rfl

/-- C10: the resolver is total — on every combination of workload, cluster
and default requirements (defaults lacking entries included) it returns a
requirements value whose requests list has both a cpu and a memory entry
and whose limits list has a memory entry; every pointer dereferenced while
packaging was assigned on that control path. -/
theorem newResourceRequirements_total (n c d : ResourceRequirements) :
    ∃ r, newResourceRequirements n c d = some r ∧
      r.requests.cpu.isSome ∧ r.requests.memory.isSome ∧ r.limits.memory.isSome := by
  obtain ⟨rm, lm, hm⟩ := resolveMem_some n c d
  obtain ⟨rc, lc, hc⟩ := resolveCPU_fst_some n c d
  exact ⟨_, newResourceRequirements_eq hm hc, rfl, rfl, rfl⟩

/-- In the cluster-set branch, the CPU limit pointer follows the code's
ladder: node limit if non-zero, else common limit if non-zero, else it is
left nil (it does NOT fall back to the common request). -/
lemma resolveCPU_cluster_set {n c d : ResourceRequirements}
    (h : ¬(quantityOf c.requests.cpu = 0 ∧ quantityOf c.limits.cpu = 0)) :
    resolveCPU n c d =
      (some (if quantityOf n.requests.cpu = 0 then
          (if quantityOf c.requests.cpu = 0 then quantityOf c.limits.cpu
           else quantityOf c.requests.cpu)
         else quantityOf n.requests.cpu),
       if quantityOf n.limits.cpu = 0 then
         (if quantityOf c.limits.cpu = 0 then none
          else some (quantityOf c.limits.cpu))
       else some (quantityOf n.limits.cpu)) := by
  simp only [resolveCPU, if_neg h]

/-- C1 (counterexample): with the cluster tier setting only a CPU request
(600m) and the workload tier setting nothing, the resolver returns no CPU
limit at all — the limits list has no cpu entry — rather than falling back
to the cluster CPU request as the claim's ladder states. -/
theorem cpuLimit_clusterRequestOnly_counterexample :
    newResourceRequirements
      ⟨⟨none, none⟩, ⟨none, none⟩⟩
      ⟨⟨none, none⟩, ⟨some 600, none⟩⟩
      ⟨⟨none, some 4096⟩, ⟨some 100, some 4096⟩⟩ =
      some ⟨⟨none, some 4096⟩, ⟨some 600, some 4096⟩⟩ ∧
    quantityOf (⟨⟨none, none⟩, ⟨some 600, none⟩⟩ : ResourceRequirements).requests.cpu ≠ 0 ∧
    (⟨⟨none, some 4096⟩, ⟨some 600, some 4096⟩⟩ : ResourceRequirements).limits.cpu = none := by
  refine ⟨?_, by decide, rfl⟩
  rfl

/-- C1 (amended): whenever the cluster tier sets a CPU request or a CPU
limit, the resolved CPU limit is the workload CPU limit if set, otherwise
the cluster CPU limit if set; if neither limit is set (only the cluster
CPU request is), no CPU limit is resolved and the returned limits list
omits the cpu entry. -/
theorem cpuLimit_precedence_amended (n c d : ResourceRequirements)
    (h : quantityOf c.requests.cpu ≠ 0 ∨ quantityOf c.limits.cpu ≠ 0) :
    ∃ r, newResourceRequirements n c d = some r ∧
      r.limits.cpu =
        (if quantityOf n.limits.cpu ≠ 0 then some (quantityOf n.limits.cpu)
         else if quantityOf c.limits.cpu ≠ 0 then some (quantityOf c.limits.cpu)
         else none) := by
  have h' : ¬(quantityOf c.requests.cpu = 0 ∧ quantityOf c.limits.cpu = 0) :=
    fun hc => h.elim (fun h1 => h1 hc.1) (fun h2 => h2 hc.2)
  obtain ⟨rm, lm, hm⟩ := resolveMem_some n c d
  refine ⟨_, newResourceRequirements_eq hm (resolveCPU_cluster_set h'), ?_⟩
  by_cases hnl : quantityOf n.limits.cpu = 0 <;>
    by_cases hcl : quantityOf c.limits.cpu = 0 <;>
    simp [hnl, hcl]

/-- C1 (amended, witness): workload sets nothing, cluster sets a CPU limit
of 2; the resolved CPU limit is the cluster limit. -/
theorem cpuLimit_precedence_amended_witness :
    ∃ r, newResourceRequirements
      ⟨⟨none, none⟩, ⟨none, none⟩⟩
      ⟨⟨some 2, none⟩, ⟨none, none⟩⟩
      ⟨⟨none, some 4096⟩, ⟨some 100, some 4096⟩⟩ = some r ∧
      r.limits.cpu =
        (if quantityOf (⟨⟨none, none⟩, ⟨none, none⟩⟩ : ResourceRequirements).limits.cpu ≠ 0 then
          some (quantityOf (⟨⟨none, none⟩, ⟨none, none⟩⟩ : ResourceRequirements).limits.cpu)
         else if quantityOf (⟨⟨some 2, none⟩, ⟨none, none⟩⟩ : ResourceRequirements).limits.cpu ≠ 0 then
          some (quantityOf (⟨⟨some 2, none⟩, ⟨none, none⟩⟩ : ResourceRequirements).limits.cpu)
         else none) :=
  cpuLimit_precedence_amended _ _ _ (Or.inr (by decide))

/-- C6: with no cluster memory settings and exactly one of the workload
memory request / memory limit set, both the resolved memory request and
the resolved memory limit equal that single value. -/
theorem memory_single_workload_value (n c d : ResourceRequirements)
    (hcr : quantityOf c.requests.memory = 0)
    (hcl : quantityOf c.limits.memory = 0) :
    (quantityOf n.requests.memory = 0 → quantityOf n.limits.memory ≠ 0 →
      ∃ r, newResourceRequirements n c d = some r ∧
        r.requests.memory = some (quantityOf n.limits.memory) ∧
        r.limits.memory = some (quantityOf n.limits.memory)) ∧
    (quantityOf n.limits.memory = 0 → quantityOf n.requests.memory ≠ 0 →
      ∃ r, newResourceRequirements n c d = some r ∧
        r.requests.memory = some (quantityOf n.requests.memory) ∧
        r.limits.memory = some (quantityOf n.requests.memory)) := by
  obtain ⟨rc, lc, hcpu⟩ := resolveCPU_fst_some n c d
  constructor
  · intro hnr hnl
    have hm : resolveMem n c d =
        (some (quantityOf n.limits.memory), some (quantityOf n.limits.memory)) := by
      simp only [resolveMem]
      rw [if_pos ⟨hcr, hcl⟩, if_neg (by exact fun hh => hnl hh.2), if_pos hnr]
    exact ⟨_, newResourceRequirements_eq hm hcpu, rfl, rfl⟩
  · intro hnl hnr
    have hm : resolveMem n c d =
        (some (quantityOf n.requests.memory), some (quantityOf n.requests.memory)) := by
      simp only [resolveMem]
      rw [if_pos ⟨hcr, hcl⟩, if_neg (by exact fun hh => hnr hh.1), if_neg hnr,
        if_pos hnl]
    exact ⟨_, newResourceRequirements_eq hm hcpu, rfl, rfl⟩

/-- C6 (witness): workload memory limit 4 alone yields request 4 and
limit 4. -/
theorem memory_single_workload_value_witness :
    ∃ r, newResourceRequirements
      ⟨⟨none, some 4⟩, ⟨none, none⟩⟩
      ⟨⟨none, none⟩, ⟨none, none⟩⟩
      ⟨⟨none, some 2⟩, ⟨some 1, some 1⟩⟩ = some r ∧
      r.requests.memory = some 4 ∧ r.limits.memory = some 4 :=
  (memory_single_workload_value
    ⟨⟨none, some 4⟩, ⟨none, none⟩⟩
    ⟨⟨none, none⟩, ⟨none, none⟩⟩
    ⟨⟨none, some 2⟩, ⟨some 1, some 1⟩⟩ (by decide) (by decide)).1 (by decide) (by decide)

/-- C7: when no tier sets any CPU value (the built-in default having only
its request entry), the resolved CPU request is the default CPU request
and no CPU limit is resolved; moreover, on every input the limits list has
a cpu entry exactly when the CPU block resolved a limit, and always has a
memory entry. -/
theorem cpu_default_request_only :
    (∀ n c d : ResourceRequirements,
      quantityOf n.requests.cpu = 0 → quantityOf n.limits.cpu = 0 →
      quantityOf c.requests.cpu = 0 → quantityOf c.limits.cpu = 0 →
      quantityOf d.limits.cpu = 0 →
      ∃ r, newResourceRequirements n c d = some r ∧
        r.requests.cpu = some (quantityOf d.requests.cpu) ∧
        r.limits.cpu = none) ∧
    (∀ n c d r, newResourceRequirements n c d = some r →
      r.limits.cpu = (resolveCPU n c d).2 ∧ r.limits.memory.isSome) := by
  constructor
  · intro n c d hnr hnl hcr hcl _
    obtain ⟨rm, lm, hm⟩ := resolveMem_some n c d
    have hcpu : resolveCPU n c d = (some (quantityOf d.requests.cpu), none) := by
      simp only [resolveCPU]
      rw [if_pos ⟨hcr, hcl⟩, if_pos ⟨hnr, hnl⟩]
    exact ⟨_, newResourceRequirements_eq hm hcpu, rfl, rfl⟩
  · intro n c d r hr
    obtain ⟨rm, lm, hm⟩ := resolveMem_some n c d
    obtain ⟨rc, lc, hcpu⟩ := resolveCPU_fst_some n c d
    rw [newResourceRequirements_eq hm hcpu] at hr
    obtain rfl := (Option.some.inj hr).symm
    exact ⟨by rw [hcpu], rfl⟩

/-- C7 (witness): all-empty workload and cluster tiers with the default
tier carrying only a CPU request of 100 yield request 100 and no cpu
entry in the limits list. -/
theorem cpu_default_request_only_witness :
    (∃ r, newResourceRequirements
      ⟨⟨none, none⟩, ⟨none, none⟩⟩
      ⟨⟨none, none⟩, ⟨none, none⟩⟩
      ⟨⟨none, some 4096⟩, ⟨some 100, some 4096⟩⟩ = some r ∧
      r.requests.cpu = some 100 ∧ r.limits.cpu = none) ∧
    ((⟨⟨none, some 4096⟩, ⟨some 100, some 4096⟩⟩ : ResourceRequirements).limits.cpu =
        (resolveCPU ⟨⟨none, none⟩, ⟨none, none⟩⟩ ⟨⟨none, none⟩, ⟨none, none⟩⟩
          ⟨⟨none, some 4096⟩, ⟨some 100, some 4096⟩⟩).2 ∧
      (⟨⟨none, some 4096⟩, ⟨some 100, some 4096⟩⟩ : ResourceRequirements).limits.memory.isSome) :=
  ⟨cpu_default_request_only.1 _ _ _ (by decide) (by decide) (by decide) (by decide) (by decide),
   cpu_default_request_only.2
     ⟨⟨none, none⟩, ⟨none, none⟩⟩ ⟨⟨none, none⟩, ⟨none, none⟩⟩
     ⟨⟨none, some 4096⟩, ⟨some 100, some 4096⟩⟩
     ⟨⟨none, some 4096⟩, ⟨some 100, some 4096⟩⟩ (by decide)⟩

/-! ## Reconciler lemmas and claims -/

/-- A sample secret used to instantiate witnesses. -/
def sampleSecret : Secret :=
  ⟨"es-cert", "logging", [("k", "v")], [], [("tls.crt", [1, 2])], "42"⟩

/-- A sample current state of the store differing from `sampleSecret`. -/
def sampleCurrent : Secret :=
  ⟨"es-cert", "logging", [], [], [("tls.crt", [9])], "7"⟩

/-- C5: the data-only mutation changes only the data field of `current`,
and the annotations+data mutation changes only the annotations and data
fields; every other field — the revision token `resourceVersion` included —
keeps its value, and (both functions being pure functions of their
arguments in this embedding) `desired` is untouched. -/
theorem mutate_frame (current desired : Secret) :
    (MutateDataOnly current desired).name = current.name ∧
    (MutateDataOnly current desired).nspace = current.nspace ∧
    (MutateDataOnly current desired).annotations = current.annotations ∧
    (MutateDataOnly current desired).labels = current.labels ∧
    (MutateDataOnly current desired).resourceVersion = current.resourceVersion ∧
    (MutateDataOnly current desired).data = desired.data ∧
    (MutateAnnotationsAndDataOnly current desired).name = current.name ∧
    (MutateAnnotationsAndDataOnly current desired).nspace = current.nspace ∧
    (MutateAnnotationsAndDataOnly current desired).labels = current.labels ∧
    (MutateAnnotationsAndDataOnly current desired).resourceVersion = current.resourceVersion ∧
    (MutateAnnotationsAndDataOnly current desired).annotations = desired.annotations ∧
    (MutateAnnotationsAndDataOnly current desired).data = desired.data :=
  ⟨rfl, rfl, rfl, rfl, rfl, rfl, rfl, rfl, rfl, rfl, rfl, rfl⟩

/-- C3: when the initial fetch succeeds and the fetched current object is
`equal` to the desired one, `CreateOrUpdate` returns success and issues no
write (no create, no update) against the store. -/
theorem createOrUpdate_equal_noop (c : Client) (s current : Secret)
    (equal : Secret → Secret → Bool) (mutate : Secret → Secret → Secret)
    (hget : c.getInitial = .ok current) (heq : equal current s = true) :
    CreateOrUpdate c s equal mutate = (none, []) := by
  simp only [CreateOrUpdate, hget, heq, if_true]

/-- C3 (witness): a store already holding an object `DataEqual` to the
desired one is left untouched. -/
theorem createOrUpdate_equal_noop_witness :
    CreateOrUpdate
      ⟨.ok sampleSecret, fun _ => .ok sampleSecret, fun _ _ => none, none, none⟩
      sampleSecret DataEqual MutateDataOnly = (none, []) :=
  createOrUpdate_equal_noop _ sampleSecret sampleSecret DataEqual MutateDataOnly
    rfl (by decide)

/-- C2 (counterexample): the secret delete path wraps and surfaces a
not-found store error instead of treating it as success, and the secret
create path wraps and surfaces an already-exists store error instead of
treating it as success. -/
theorem idempotent_error_policy_counterexample :
    Delete ⟨.error .notFound, fun _ => .error .notFound, fun _ _ => none,
        none, some .notFound⟩ "s" "ns" =
      some (.wrap "failed to delete secret" [("name", "s"), ("namespace", "ns")]
        (.store .notFound)) ∧
    (CreateOrUpdate ⟨.error .notFound, fun _ => .error .notFound, fun _ _ => none,
        some .alreadyExists, none⟩ sampleSecret DataEqual MutateDataOnly).1 =
      some (.wrap "failed to create secret"
        [("name", "es-cert"), ("namespace", "logging")] (.store .alreadyExists)) :=
  ⟨rfl, rfl⟩

/-- C2 (amended): the network-policy create path treats an already-exists
root cause as success and the network-policy delete path treats a
not-found root cause as success, each wrapping every other failure; the
secret create and delete paths, by contrast, wrap and surface every store
failure — already-exists and not-found included — with the object's key. -/
theorem error_policy_amended :
    (∀ e : KubeError, EnforceNetworkPolicy (some e) =
      (if e.root = .alreadyExists then none
       else some (.wrap "failed to create network policy" [] e))) ∧
    (∀ e : KubeError, RelaxNetworkPolicy (some e) =
      (if e.root = .notFound then none
       else some (.wrap "failed to delete network policy" [] e))) ∧
    (∀ (c : Client) (s : Secret) (equal : Secret → Secret → Bool)
        (mutate : Secret → Secret → Secret) (ce : StoreError),
      c.getInitial = .error .notFound → c.createResult = some ce →
      (CreateOrUpdate c s equal mutate).1 =
        some (.wrap "failed to create secret"
          [("name", s.name), ("namespace", s.nspace)] (.store ce))) ∧
    (∀ (c : Client) (name nspace : String) (de : StoreError),
      c.deleteResult = some de →
      Delete c name nspace =
        some (.wrap "failed to delete secret"
          [("name", name), ("namespace", nspace)] (.store de))) := by
  refine ⟨fun e => rfl, fun e => rfl, ?_, ?_⟩
  · intro c s equal mutate ce hget hcr
    simp [CreateOrUpdate, hget, hcr]
  · intro c name nspace de hd
    simp only [Delete, hd]

/-- C2 (amended, witness): already-exists on network-policy create and
not-found on network-policy delete are success; a transport failure on
network-policy create is wrapped; already-exists on secret create and
not-found on secret delete are wrapped errors. -/
theorem error_policy_amended_witness :
    EnforceNetworkPolicy (some (.store .alreadyExists)) = none ∧
    EnforceNetworkPolicy (some (.store (.transport 7))) =
      some (.wrap "failed to create network policy" [] (.store (.transport 7))) ∧
    RelaxNetworkPolicy (some (.store .notFound)) = none ∧
    (CreateOrUpdate ⟨.error .notFound, fun _ => .error .notFound, fun _ _ => none,
        some .alreadyExists, none⟩ sampleSecret DataEqual MutateDataOnly).1 =
      some (.wrap "failed to create secret"
        [("name", sampleSecret.name), ("namespace", sampleSecret.nspace)]
        (.store .alreadyExists)) ∧
    Delete ⟨.error .notFound, fun _ => .error .notFound, fun _ _ => none,
        none, some .notFound⟩ "s" "ns" =
      some (.wrap "failed to delete secret" [("name", "s"), ("namespace", "ns")]
        (.store .notFound)) :=
  ⟨(error_policy_amended.1 _).trans (by decide),
   (error_policy_amended.1 _).trans (by decide),
   (error_policy_amended.2.1 _).trans (by decide),
   error_policy_amended.2.2.1 _ sampleSecret DataEqual MutateDataOnly
     .alreadyExists rfl rfl,
   error_policy_amended.2.2.2 _ "s" "ns" .notFound rfl⟩

/-- C4: inside the update loop, a conflict is the only retried failure.
First part: when every update attempt reports a conflict (and every
re-fetch succeeds, yielding `g i` on attempt `i`), the loop runs exactly
the fixed budget of `defaultRetrySteps = 5` attempts — each one a
re-fetch, re-merge (`mutate (g i) s`) and re-submit — and surfaces the
conflict error wrapped with the object's key. Second part: a non-conflict
failure on the first update attempt aborts the loop immediately — exactly
one write is issued — and is surfaced wrapped with the object's key. -/
theorem createOrUpdate_retry_policy :
    (∀ (c : Client) (s current : Secret) (g : Nat → Secret)
        (equal : Secret → Secret → Bool) (mutate : Secret → Secret → Secret),
      c.getInitial = .ok current → equal current s = false →
      (∀ i, c.getRetry i = .ok (g i)) →
      (∀ i sec, c.updateResult i sec = some .conflict) →
      CreateOrUpdate c s equal mutate =
        (some (.wrap "failed to update secret"
          [("name", s.name), ("namespace", s.nspace)] (.store .conflict)),
         [.update (mutate (g 0) s), .update (mutate (g 1) s),
          .update (mutate (g 2) s), .update (mutate (g 3) s),
          .update (mutate (g 4) s)])) ∧
    (∀ (c : Client) (s current cur0 : Secret) (e : StoreError)
        (equal : Secret → Secret → Bool) (mutate : Secret → Secret → Secret),
      c.getInitial = .ok current → equal current s = false →
      c.getRetry 0 = .ok cur0 →
      c.updateResult 0 (mutate cur0 s) = some e → e ≠ .conflict →
      CreateOrUpdate c s equal mutate =
        (some (.wrap "failed to update secret"
          [("name", s.name), ("namespace", s.nspace)] (.store e)),
         [.update (mutate cur0 s)])) := by
  constructor
  · intro c s current g equal mutate hget heq hg hu
    simp only [CreateOrUpdate, hget, heq, Bool.false_eq_true, if_false,
      defaultRetrySteps, retryOnConflict, syncUpdateAttempt, hg, hu,
      KubeError.isConflict, if_true, List.append_nil, List.cons_append,
      List.nil_append]
  · intro c s current cur0 e equal mutate hget heq hg0 hu0 he
    have hic : (KubeError.store e).isConflict = false := by
      cases e <;> simp_all [KubeError.isConflict]
    simp only [CreateOrUpdate, hget, heq, Bool.false_eq_true, if_false,
      defaultRetrySteps, retryOnConflict, syncUpdateAttempt, hg0, hu0,
      hic, Bool.false_eq_true, if_false]

/-- C4 (witness): with a store that always reports a conflict the call
issues exactly five updates and surfaces a wrapped conflict; with a store
whose first update fails with a transport error the call issues exactly
one update and surfaces it wrapped. -/
theorem createOrUpdate_retry_policy_witness :
    CreateOrUpdate
      ⟨.ok sampleCurrent, fun _ => .ok sampleCurrent, fun _ _ => some .conflict,
        none, none⟩ sampleSecret DataEqual MutateDataOnly =
      (some (.wrap "failed to update secret"
        [("name", sampleSecret.name), ("namespace", sampleSecret.nspace)]
        (.store .conflict)),
       [.update (MutateDataOnly sampleCurrent sampleSecret),
        .update (MutateDataOnly sampleCurrent sampleSecret),
        .update (MutateDataOnly sampleCurrent sampleSecret),
        .update (MutateDataOnly sampleCurrent sampleSecret),
        .update (MutateDataOnly sampleCurrent sampleSecret)]) ∧
    CreateOrUpdate
      ⟨.ok sampleCurrent, fun _ => .ok sampleCurrent,
        fun _ _ => some (.transport 3), none, none⟩
      sampleSecret DataEqual MutateDataOnly =
      (some (.wrap "failed to update secret"
        [("name", sampleSecret.name), ("namespace", sampleSecret.nspace)]
        (.store (.transport 3))),
       [.update (MutateDataOnly sampleCurrent sampleSecret)]) :=
  ⟨createOrUpdate_retry_policy.1 _ sampleSecret sampleCurrent
      (fun _ => sampleCurrent) DataEqual MutateDataOnly rfl (by decide)
      (fun _ => rfl) (fun _ _ => rfl),
   createOrUpdate_retry_policy.2 _ sampleSecret sampleCurrent sampleCurrent
      (.transport 3) DataEqual MutateDataOnly rfl (by decide) rfl rfl
      (by decide)⟩

/-! ## Fingerprint lemmas and claims -/

/-- `lookupD` agrees across permutations of a map with distinct keys. -/
lemma lookupD_perm {m1 m2 : List (String × String)} (p : m1.Perm m2) (k : String) :
    (m1.map Prod.fst).Nodup → lookupD m1 k = lookupD m2 k := by
  induction p with
  | nil => intro _; rfl
  | cons x p ih =>
    intro hnd
    simp only [List.map_cons, List.nodup_cons] at hnd
    simp only [lookupD]
    rw [ih hnd.2]
  | swap x y l =>
    intro hnd
    simp only [List.map_cons, List.nodup_cons, List.mem_cons] at hnd
    have hxy : y.1 ≠ x.1 := fun h => hnd.1 (Or.inl h)
    simp only [lookupD]
    by_cases h1 : y.1 = k <;> by_cases h2 : x.1 = k <;>
      simp [h1, h2]
    exact absurd (h1.trans h2.symm) hxy
  | trans p1 p2 ih1 ih2 =>
    intro hnd
    rw [ih1 hnd, ih2 ((p1.map Prod.fst).nodup hnd)]

/-- A key present among a map's keys is found by `lookupD`, and the found
value belongs to the map at that key. -/
lemma lookupD_mem {m : List (String × String)} {k : String}
    (h : k ∈ m.map Prod.fst) : ∃ kv ∈ m, kv.1 = k ∧ lookupD m k = kv.2 := by
  induction m with
  | nil => simp at h
  | cons kv t ih =>
    by_cases hk : kv.1 = k
    · exact ⟨kv, List.mem_cons_self kv t, hk, by simp [lookupD, hk]⟩
    · have hkt : k ∈ t.map Prod.fst := by
        simp only [List.map_cons, List.mem_cons] at h
        exact h.resolve_left (fun hh => hk hh.symm)
      obtain ⟨kv', hmem, hk', hl⟩ := ih hkt
      exact ⟨kv', List.mem_cons_of_mem _ hmem, hk', by simp [lookupD, hk, hl]⟩

/-- Folding concatenation of pointwise-equal digest functions over the
same key list yields the same string. -/
lemma foldl_append_congr (f g : String → String) :
    ∀ (ks : List String) (a : String), (∀ k ∈ ks, f k = g k) →
      List.foldl (fun h k => h ++ f k) a ks = List.foldl (fun h k => h ++ g k) a ks := by
  intro ks
  induction ks with
  | nil => intro a _; rfl
  | cons k t ih =>
    intro a h
    simp only [List.foldl_cons]
    rw [h k (List.mem_cons_self k t), ih _ (fun x hx => h x (List.mem_cons_of_mem _ hx))]

/-- The length of a fold of concatenations is the initial length plus the
sum of the appended lengths. -/
lemma foldl_append_length (f : String → String) :
    ∀ (ks : List String) (a : String),
      (List.foldl (fun h k => h ++ f k) a ks).length =
        a.length + (ks.map (fun k => (f k).length)).sum := by
  intro ks
  induction ks with
  | nil => intro a; simp
  | cons k t ih =>
    intro a
    simp only [List.foldl_cons, List.map_cons, List.sum_cons]
    rw [ih]
    simp [String.length_append]
    omega

/-- A non-empty string has positive length. -/
lemma string_length_pos {s : String} (h : s ≠ "") : 0 < s.length := by
  cases s with
  | mk d =>
    cases d with
    | nil => exact absurd rfl h
    | cons c t => simp [String.length]

/-- C8: on two data maps with distinct keys that hold the same entries
(the same key set with the same byte value per key, i.e. one is a
permutation of the other), the fingerprint is identical regardless of the
maps' iteration order, because the digests are concatenated in
lexicographically sorted key order. -/
theorem getDataSHA256_order_independent (sha256 : List Nat → String)
    (s1 s2 : Secret) (hnd : (s1.data.map Prod.fst).Nodup)
    (hp : s1.data.Perm s2.data) :
    GetDataSHA256 sha256 (.ok s1) = GetDataSHA256 sha256 (.ok s2) := by
  simp only [GetDataSHA256]
  have hph : (s1.data.map (fun kv => (kv.1, sha256 kv.2))).Perm
      (s2.data.map (fun kv => (kv.1, sha256 kv.2))) := hp.map _
  have hfst : (Prod.fst ∘ fun kv : String × List Nat => (kv.1, sha256 kv.2)) =
      Prod.fst := funext fun kv => rfl
  have hnd1 : ((s1.data.map (fun kv => (kv.1, sha256 kv.2))).map Prod.fst).Nodup := by
    rw [List.map_map, hfst]; exact hnd
  have hkeys : ((s1.data.map (fun kv => (kv.1, sha256 kv.2))).map Prod.fst).Perm
      ((s2.data.map (fun kv => (kv.1, sha256 kv.2))).map Prod.fst) := hph.map _
  have hsorted : List.insertionSort (· ≤ ·)
      ((s1.data.map (fun kv => (kv.1, sha256 kv.2))).map Prod.fst) =
      List.insertionSort (· ≤ ·)
      ((s2.data.map (fun kv => (kv.1, sha256 kv.2))).map Prod.fst) :=
    List.eq_of_perm_of_sorted
      ((List.perm_insertionSort _ _).trans
        (hkeys.trans (List.perm_insertionSort _ _).symm))
      (List.sorted_insertionSort _ _) (List.sorted_insertionSort _ _)
  rw [hsorted]
  exact foldl_append_congr _ _ _ _ (fun k _ => lookupD_perm hph k hnd1)

/-- C8 (witness): the fingerprint of `{"b": [2,3], "a": [1]}` equals the
fingerprint of `{"a": [1], "b": [2,3]}`. -/
theorem getDataSHA256_order_independent_witness :
    GetDataSHA256 (fun v => String.mk (v.map (fun n => Char.ofNat (65 + n % 26))))
      (.ok ⟨"n", "ns", [], [], [("b", [2, 3]), ("a", [1])], "1"⟩) =
    GetDataSHA256 (fun v => String.mk (v.map (fun n => Char.ofNat (65 + n % 26))))
      (.ok ⟨"n", "ns", [], [], [("a", [1]), ("b", [2, 3])], "1"⟩) :=
  getDataSHA256_order_independent _
    ⟨"n", "ns", [], [], [("b", [2, 3]), ("a", [1])], "1"⟩
    ⟨"n", "ns", [], [], [("a", [1]), ("b", [2, 3])], "1"⟩
    (by decide) (List.Perm.swap ("a", [1]) ("b", [2, 3]) [])

/-- C9: assuming the digest primitive never produces the empty string (a
sha256 digest is 32 bytes), `GetDataSHA256` returns the empty string
exactly when the fetch of the secret failed or the secret's data map is
empty — a fetch failure and an empty object yield the same sentinel — and
it returns a string on every input rather than an error. -/
theorem getDataSHA256_empty_sentinel (sha256 : List Nat → String)
    (fetch : Except StoreError Secret) (hsha : ∀ v, sha256 v ≠ "") :
    GetDataSHA256 sha256 fetch = "" ↔
      (∃ e, fetch = .error e) ∨ (∃ s, fetch = .ok s ∧ s.data = []) := by
  cases fetch with
  | error e =>
    simp only [GetDataSHA256]
    exact ⟨fun _ => Or.inl ⟨e, rfl⟩, fun _ => trivial⟩
  | ok s =>
    simp only [GetDataSHA256]
    constructor
    · intro h
      refine Or.inr ⟨s, rfl, ?_⟩
      by_contra hne
      set m := s.data.map (fun kv => (kv.1, sha256 kv.2)) with hm
      set ks := List.insertionSort (· ≤ ·) (m.map Prod.fst) with hks
      obtain ⟨kv0, hkv0⟩ := List.exists_mem_of_ne_nil _ hne
      have hk0 : kv0.1 ∈ m.map Prod.fst := by
        rw [hm, List.map_map]
        exact List.mem_map.mpr ⟨kv0, hkv0, rfl⟩
      have hk0s : kv0.1 ∈ ks := by
        rw [hks]
        exact (List.perm_insertionSort _ _).mem_iff.mpr hk0
      obtain ⟨kv', hmem', _, hl'⟩ := lookupD_mem hk0
      rw [hm] at hmem'
      obtain ⟨orig, _, horig⟩ := List.mem_map.mp hmem'
      have hpos : 0 < (lookupD m kv0.1).length := by
        rw [hl', ← horig]
        exact string_length_pos (hsha orig.2)
      have hzero : (List.foldl (fun h k => h ++ lookupD m k) "" ks).length = 0 := by
        rw [h]
        rfl
      rw [foldl_append_length (lookupD m) ks ""] at hzero
      have hsum : 0 < (ks.map (fun k => (lookupD m k).length)).sum :=
        lt_of_lt_of_le hpos
          (List.single_le_sum (fun x _ => Nat.zero_le x) _
            (List.mem_map.mpr ⟨kv0.1, hk0s, rfl⟩))
      omega
    · rintro (⟨e, he⟩ | ⟨s', hs', hd⟩)
      · cases he
      · cases hs'
        rw [hd]
        rfl

/-- C9 (witness): a failed fetch and a successfully fetched secret with an
empty data map both yield the empty-string sentinel. -/
theorem getDataSHA256_empty_sentinel_witness :
    GetDataSHA256 (fun _ => "h") (.error (.transport 5)) = "" ∧
    GetDataSHA256 (fun _ => "h") (.ok ⟨"n", "ns", [], [], [], "1"⟩) = "" :=
  ⟨(getDataSHA256_empty_sentinel (fun _ => "h") (.error (.transport 5))
      (by intro v; show ("h" : String) ≠ ""; decide)).mpr (Or.inl ⟨_, rfl⟩),
   (getDataSHA256_empty_sentinel (fun _ => "h") (.ok ⟨"n", "ns", [], [], [], "1"⟩)
      (by intro v; show ("h" : String) ≠ ""; decide)).mpr (Or.inr ⟨_, rfl, rfl⟩)⟩

end ElasticsearchOperator
